import Mathlib

set_option maxRecDepth 100000

/-!
Verification of the Nuke software-launcher discovery module (`startup.py`).

The Python source is shallowly embedded: Python strings become `List Char`,
`str.replace` becomes `strReplace` (left-to-right, non-overlapping replacement
of every occurrence), `str.strip` becomes `pyStrip`, the `in` substring test
becomes `containsSub`, and the module-level constant tables become Lean
definitions with the source's names.  The filesystem read (`glob.glob`) is a
parameter `globFS`, the Python 2 dict iteration order of
`executable_matches.iteritems()` is a parameter `dictOrder` (constrained to be
a permutation where a theorem needs it), and the user's home directory
(`os.path.expanduser`) is a parameter `home`.  All definitions are executable
so concrete claims can be settled by `decide`.
-/

/-- Convert a string literal to the `List Char` representation used throughout. -/
def str (s : String) : List Char := s.toList

/-- Fuel-indexed worker for `strReplace`.  At each position, if `old` is a
prefix of the remaining input, emit `new` and skip past `old`; otherwise copy
one character.  This is Python's `str.replace` semantics (left-to-right,
non-overlapping) for a non-empty `old`.  Fuel is consumed one unit per step so
the recursion is structural and kernel-reducible. -/
def strReplaceAux (old new : List Char) : Nat → List Char → List Char
  | 0, s => s
  | _ + 1, [] => []
  | fuel + 1, c :: rest =>
    if old.isPrefixOf (c :: rest) then
      new ++ strReplaceAux old new fuel ((c :: rest).drop old.length)
    else
      c :: strReplaceAux old new fuel rest

/-- Python `s.replace(old, new)` for non-empty `old` (every pattern passed by
the source — `"%s"`, `"  "`, `"{name}"`, a backslash — is non-empty; an empty
`old` is never passed, so it is mapped to the identity). -/
def strReplace (s old new : List Char) : List Char :=
  if old.isEmpty then s else strReplaceAux old new s.length s

/-- Python `s.strip()`: drop leading and trailing whitespace. -/
def pyStrip (s : List Char) : List Char :=
  ((s.dropWhile Char.isWhitespace).reverse.dropWhile Char.isWhitespace).reverse

/-- Python's substring test `pat in s`. -/
def containsSub (pat : List Char) : List Char → Bool
  | [] => pat.isEmpty
  | c :: rest => pat.isPrefixOf (c :: rest) || containsSub pat rest

/-- Python `s.lower()` (ASCII case folding suffices for every string the
source compares). -/
def pyLower (s : List Char) : List Char := s.map Char.toLower

/-- Python `version.split(".", 1)[0]`: the substring before the first `"."`
(the whole string when no dot occurs). -/
def splitDotHead (version : List Char) : List Char :=
  version.takeWhile (fun c => c ≠ '.')

/-- `_template_to_variation_name` from the source:
`template.replace("%s", "").replace("  ", " ").strip()`. -/
def templateToVariationName (template : List Char) : List Char :=
  pyStrip (strReplace (strReplace template (str "%s") []) (str "  ") (str " "))

/-- `NUKE_7_8_VARIATION_DISPLAY_NAME_TEMPLATES` from the source. -/
def NUKE_7_8_VARIATION_DISPLAY_NAME_TEMPLATES : List (List Char) :=
  [str "Nuke %s", str "NukeX %s", str "Nuke %s PLE", str "NukeAssist %s"]

/-- `NUKE_7_8_VARIATIONS` from the source. -/
def NUKE_7_8_VARIATIONS : List (List Char) :=
  NUKE_7_8_VARIATION_DISPLAY_NAME_TEMPLATES.map templateToVariationName

/-- `NUKE_9_OR_HIGHER_VARIATION_DISPLAY_NAME_TEMPLATES` from the source. -/
def NUKE_9_OR_HIGHER_VARIATION_DISPLAY_NAME_TEMPLATES : List (List Char) :=
  [str "Nuke %s",
   str "Nuke %s Non-commercial",
   str "NukeAssist %s",
   str "NukeStudio %s",
   str "NukeStudio %s Non-commercial",
   str "NukeX %s",
   str "NukeX %s Non-commercial",
   str "Hiero %s"]

/-- `NUKE_9_OR_HIGHER_VARIATIONS` from the source. -/
def NUKE_9_OR_HIGHER_VARIATIONS : List (List Char) :=
  NUKE_9_OR_HIGHER_VARIATION_DISPLAY_NAME_TEMPLATES.map templateToVariationName

/-- `NukeLauncher._get_variation_templates_from_version`:
`if version.split(".", 1)[0] in ["7", "8"]` choose the Nuke 7/8 template list,
else the Nuke 9+ template list. -/
def getVariationTemplatesFromVersion (version : List Char) : List (List Char) :=
  if splitDotHead version ∈ [str "7", str "8"] then
    NUKE_7_8_VARIATION_DISPLAY_NAME_TEMPLATES
  else
    NUKE_9_OR_HIGHER_VARIATION_DISPLAY_NAME_TEMPLATES

/-- `NukeLauncher._get_variations_from_version`: same branch, on the
variation-name lists. -/
def getVariationsFromVersion (version : List Char) : List (List Char) :=
  if splitDotHead version ∈ [str "7", str "8"] then
    NUKE_7_8_VARIATIONS
  else
    NUKE_9_OR_HIGHER_VARIATIONS

/-- `NukeLauncher._get_icon_from_variant`.  The source joins each file name to
`self.disk_location`; the host-supplied directory prefix is common to all four
branches, so the icon choice is modelled by the file name. -/
def getIconFromVariant (variant : List Char) : List Char :=
  if containsSub (str "studio") (pyLower variant) then str "icon_studio_256.png"
  else if containsSub (str "hiero") (pyLower variant) then str "icon_hiero_256.png"
  else if containsSub (str "nukex") (pyLower variant) then str "icon_x_256.png"
  else str "icon_256.png"

/-- The five mutually exclusive launch flags tested for in
`_extract_variations_from_path`. -/
def fiveFlags : List (List Char) :=
  [str "--studio", str "--nukeassist", str "--nukex", str "--hiero", str "--ple"]

/-- The launch-argument accumulation of `_extract_variations_from_path`
(non-darwin branch): an `if/elif` chain of substring tests against the raw
variation-template text appending one flag, then an independent test appending
`--nc`. -/
def argumentsForVariationTemplate (t : List Char) : List (List Char) :=
  (if containsSub (str "Studio") t then [str "--studio"]
   else if containsSub (str "Assist") t then [str "--nukeassist"]
   else if containsSub (str "NukeX") t then [str "--nukex"]
   else if containsSub (str "Hiero") t then [str "--hiero"]
   else if containsSub (str "PLE") t then [str "--ple"]
   else [])
  ++ (if containsSub (str "Non-commercial") t then [str "--nc"] else [])

/-- The `SoftwareVersion` record produced by the scanner (version string,
product name, display name, executable path, icon, launch arguments). -/
structure SoftwareVersion where
  version : List Char
  product : List Char
  displayName : List Char
  path : List Char
  icon : List Char
  args : List (List Char)
deriving DecidableEq

/-- Python `template % (version,)` for the fixed variation templates:
each contains exactly one `"%s"` slot, so `%`-formatting is substitution of
that occurrence. -/
def pyFormatPercentS (t v : List Char) : List Char := strReplace t (str "%s") v

/-- Non-darwin branch of `_extract_variations_from_path`: one variation per
template of the version-selected list, with name/display/icon/arguments all
derived from the template text. -/
def extractVariationsShared (executablePath executableVersion : List Char) :
    List SoftwareVersion :=
  (getVariationTemplatesFromVersion executableVersion).map fun variationTemplate =>
    { version := executableVersion
      product := templateToVariationName variationTemplate
      displayName := pyFormatPercentS variationTemplate executableVersion
      path := executablePath
      icon := getIconFromVariant variationTemplate
      args := argumentsForVariationTemplate variationTemplate }

/-- Darwin branch of `_extract_variations_from_path`: the regex's mandatory
`version` and `variant` groups are passed as strings, the optional `suffix`
group as an `Option`; `match.get("suffix") or ""` becomes `.getD []`
(Python's `or ""` maps both `None` and `""` to `""`). -/
def extractVariationsDarwin (executablePath executableVersion executableVariant : List Char)
    (executableSuffix : Option (List Char)) : List SoftwareVersion :=
  [{ version := executableVersion
     product := executableVariant
     displayName := executableVariant ++ str " " ++ executableVersion
       ++ executableSuffix.getD []
     path := executablePath
     icon := getIconFromVariant executableVariant
     args := [] }]

/-- `NukeLauncher.is_version_supported`: the conjunction of the host's check
(`super(...).is_version_supported`, a caller-supplied predicate `superOk`)
and membership of the product in the version-selected variation-name list. -/
def isVersionSupported (superOk : SoftwareVersion → Bool) (v : SoftwareVersion) : Bool :=
  superOk v && decide (v.product ∈ getVariationsFromVersion v.version)

/-- `NukeLauncher.COMPONENT_GLOB_LOOKUP`, in the source's literal order
(Python 2 dict iteration order is unspecified; every property proved below is
insensitive to it because all five values are identical). -/
def COMPONENT_GLOB_LOOKUP : List (List Char × List Char) :=
  [(str "version", str "*"),
   (str "variant", str "*"),
   (str "suffix", str "*"),
   (str "same_version", str "*"),
   (str "major_minor_version", str "*")]

/-- `NukeLauncher.COMPONENT_REGEX_LOOKUP`, in the source's literal order. -/
def COMPONENT_REGEX_LOOKUP : List (List Char × List Char) :=
  [(str "version", str "(?P<version>[\\d.v]+)"),
   (str "variant", str "(?P<variant>[\\w\\s]+)"),
   (str "suffix", str "(?P<suffix> Non-commercial| PLE)\x7b0,1\x7d"),
   (str "same_version", str "(?P=version)"),
   (str "major_minor_version", str "(?P<major_minor_version>[\\d.]+)")]

/-- `_format` from the source: successive `template.replace("{%s}" % key,
value)` over the lookup's entries (one `str.replace` pass per key). -/
def formatTemplate (template : List Char) (tokens : List (List Char × List Char)) :
    List Char :=
  tokens.foldl
    (fun acc kv => strReplace acc (str "\x7b" ++ kv.1 ++ str "\x7d") kv.2) template

/-- First lookup entry whose `\x7bname\x7d` placeholder is a prefix of `s`. -/
def lookupKeyPrefix (tokens : List (List Char × List Char)) (s : List Char) :
    Option (List Char × List Char) :=
  tokens.find? (fun kv => (str "\x7b" ++ kv.1 ++ str "\x7d").isPrefixOf s)

/-- Fuel-indexed worker for `formatSpec`. -/
def formatSpecAux (tokens : List (List Char × List Char)) :
    Nat → List Char → List Char
  | 0, s => s
  | _ + 1, [] => []
  | fuel + 1, c :: rest =>
    match lookupKeyPrefix tokens (c :: rest) with
    | some kv => kv.2 ++ formatSpecAux tokens fuel ((c :: rest).drop (kv.1.length + 2))
    | none => c :: formatSpecAux tokens fuel rest

/-- Modelled from the spec's formatter contract ("replace every occurrence of
`\x7bname\x7d` with `lookup[name]`, leaving unmatched placeholders untouched"):
a single simultaneous left-to-right pass over the template, substituting each
placeholder whose name is a key and copying every other character. -/
def formatSpec (tokens : List (List Char × List Char)) (s : List Char) : List Char :=
  formatSpecAux tokens s.length s

/-- `EXECUTABLE_MATCH_TEMPLATES["darwin"]` from the source. -/
def DARWIN_MATCH_TEMPLATE : List Char :=
  str "/Applications/Nuke{version}/{variant}{same_version}{suffix}.app"

/-- `EXECUTABLE_MATCH_TEMPLATES["win32"]` from the source. -/
def WIN32_MATCH_TEMPLATE : List Char :=
  str "C:/Program Files/Nuke{version}/Nuke{major_minor_version}.exe"

/-- First entry of `EXECUTABLE_MATCH_TEMPLATES["linux2"]` from the source. -/
def LINUX2_MATCH_TEMPLATE : List Char :=
  str "/usr/local/Nuke{version}/Nuke{major_minor_version}"

/-- Second entry of `EXECUTABLE_MATCH_TEMPLATES["linux2"]`:
`os.path.expanduser("~/Nuke{version}/Nuke{major_minor_version}")`, i.e. the
user's home directory prepended to the template tail. -/
def LINUX2_HOME_MATCH_TEMPLATE (home : List Char) : List Char :=
  home ++ str "/Nuke{version}/Nuke{major_minor_version}"

/-- `NukeLauncher.EXECUTABLE_MATCH_TEMPLATES`, as a function of the platform
key (`sys.platform`); keys outside the table yield `[]`, which the scanner's
platform guard makes unreachable. -/
def EXECUTABLE_MATCH_TEMPLATES (home platform : List Char) : List (List Char) :=
  if platform = str "darwin" then [DARWIN_MATCH_TEMPLATE]
  else if platform = str "win32" then [WIN32_MATCH_TEMPLATE]
  else if platform = str "linux2" then
    [LINUX2_MATCH_TEMPLATE, LINUX2_HOME_MATCH_TEMPLATE home]
  else []

/-- Fuel-indexed glob matcher: `*` matches any (possibly empty) run of
characters other than `/`; all other pattern characters match themselves
case-sensitively.  This models `glob.glob` acceptance for the patterns the
source produces (which use no `?` or `[...]`, and whose matches never involve
hidden files). -/
def globMatchAux : Nat → List Char → List Char → Bool
  | 0, _, _ => false
  | _ + 1, [], s => s.isEmpty
  | fuel + 1, c :: ps, s =>
    if c = '*' then
      globMatchAux fuel ps s ||
        (match s with
         | [] => false
         | d :: rest => decide (d ≠ '/') && globMatchAux fuel (c :: ps) rest)
    else
      match s with
      | [] => false
      | d :: rest => decide (d = c) && globMatchAux fuel ps rest

/-- Whether path `s` matches glob pattern `pattern`. -/
def globMatch (pattern s : List Char) : Bool :=
  globMatchAux (pattern.length + s.length + 1) pattern s

/-- Tokens of the regexes the source builds: literal text, a `.` wildcard, a
one-or-more character class with a named capture group, an optional group of
literal alternatives with a named capture group, and a backreference.  This
covers exactly the constructs occurring in the four formatted templates. -/
inductive RTok where
  | lit : List Char → RTok
  | dot : RTok
  | clsPlus : (Char → Bool) → List Char → RTok
  | optionalAlt : List (List Char) → List Char → RTok
  | backref : List Char → RTok

/-- Capture environment: named group → matched input text. -/
abbrev REnv : Type := List (List Char × List Char)

/-- Case-insensitive literal prefix test (the source compiles every regex with
`re.IGNORECASE`). -/
def matchLit (l s : List Char) : Bool := (pyLower l).isPrefixOf (pyLower s)

/-- `[\d.v]` on a lowered character. -/
def versionClassChar (c : Char) : Bool := c.isDigit || c = '.' || c = 'v'

/-- `[\w\s]` (Python 2 default: ASCII word characters and whitespace) on a
lowered character. -/
def wordSpaceClassChar (c : Char) : Bool :=
  c.isAlphanum || c = '_' || c = ' ' || c = '\t' || c = '\n' || c = '\r'
    || c = '\x0b' || c = '\x0c'

/-- `[\d.]` on a lowered character. -/
def majorMinorClassChar (c : Char) : Bool := c.isDigit || c = '.'

/-- Full-string regex match (the source anchors every pattern with `^...$`),
with Python's backtracking order: `+` is greedy (longest candidate first),
alternatives are tried left to right, an optional group prefers presence, and
a backreference to an unmatched group fails.  Returns the capture environment
of the match Python would produce, or `none`. -/
def matchToks : List RTok → List Char → REnv → Option REnv
  | [], s, env => if s.isEmpty then some env else none
  | RTok.lit l :: rest, s, env =>
    if matchLit l s then matchToks rest (s.drop l.length) env else none
  | RTok.dot :: rest, s, env =>
    match s with
    | [] => none
    | c :: s' => if c = '\n' then none else matchToks rest s' env
  | RTok.clsPlus p name :: rest, s, env =>
    (((List.range s.length).map (fun i => i + 1)).reverse).findSome? fun i =>
      if (s.take i).all (fun c => p c.toLower) then
        matchToks rest (s.drop i) ((name, s.take i) :: env)
      else none
  | RTok.optionalAlt alts name :: rest, s, env =>
    (alts.findSome? fun a =>
      if matchLit a s then
        matchToks rest (s.drop a.length) ((name, s.take a.length) :: env)
      else none).orElse
      (fun _ => matchToks rest s env)
  | RTok.backref name :: rest, s, env =>
    match List.lookup name env with
    | some v => if matchLit v s then matchToks rest (s.drop v.length) env else none
    | none => none

/-- Transliteration of the darwin template's formatted regex
`^/Applications/Nuke(?P<version>[\d.v]+)/(?P<variant>[\w\s]+)(?P=version)
(?P<suffix> Non-commercial| PLE)\x7b0,1\x7d.app$` (the trailing `.` is the
regex wildcard — the source does not escape it). -/
def darwinToks : List RTok :=
  [RTok.lit (str "/Applications/Nuke"),
   RTok.clsPlus versionClassChar (str "version"),
   RTok.lit (str "/"),
   RTok.clsPlus wordSpaceClassChar (str "variant"),
   RTok.backref (str "version"),
   RTok.optionalAlt [str " Non-commercial", str " PLE"] (str "suffix"),
   RTok.dot,
   RTok.lit (str "app")]

/-- Transliteration of the win32 template's formatted regex
`^C:/Program Files/Nuke(?P<version>[\d.v]+)/Nuke(?P<major_minor_version>[\d.]+).exe$`. -/
def win32Toks : List RTok :=
  [RTok.lit (str "C:/Program Files/Nuke"),
   RTok.clsPlus versionClassChar (str "version"),
   RTok.lit (str "/Nuke"),
   RTok.clsPlus majorMinorClassChar (str "major_minor_version"),
   RTok.dot,
   RTok.lit (str "exe")]

/-- Transliteration of the first linux2 template's formatted regex
`^/usr/local/Nuke(?P<version>[\d.v]+)/Nuke(?P<major_minor_version>[\d.]+)$`. -/
def linux2Toks : List RTok :=
  [RTok.lit (str "/usr/local/Nuke"),
   RTok.clsPlus versionClassChar (str "version"),
   RTok.lit (str "/Nuke"),
   RTok.clsPlus majorMinorClassChar (str "major_minor_version")]

/-- Transliteration of the second linux2 template's formatted regex, for a home
directory containing no regex metacharacters (true of ordinary home paths). -/
def linux2HomeToks (home : List Char) : List RTok :=
  [RTok.lit (home ++ str "/Nuke"),
   RTok.clsPlus versionClassChar (str "version"),
   RTok.lit (str "/Nuke"),
   RTok.clsPlus majorMinorClassChar (str "major_minor_version")]

/-- The compiled regex for each template of the fixed tables (the source
compiles `"^%s$" % _format(match_template, COMPONENT_REGEX_LOOKUP)`); templates
outside the tables are unreachable through `scanSoftware`. -/
def regexToksOf (home t : List Char) : List RTok :=
  if t = DARWIN_MATCH_TEMPLATE then darwinToks
  else if t = WIN32_MATCH_TEMPLATE then win32Toks
  else if t = LINUX2_MATCH_TEMPLATE then linux2Toks
  else if t = LINUX2_HOME_MATCH_TEMPLATE home then linux2HomeToks home
  else []

/-- The per-path step of `_find_software_variations` joined with
`_extract_variations_from_path`: a path failing the regex is skipped
(`if not match: continue`); on success the named groups feed the
platform-dependent variation expansion.  The `version` group (and `variant`
on darwin) is mandatory in every table regex, so a missing capture — which
would be a fault in the source — cannot arise from a successful match. -/
def pathVariations (isDarwin : Bool) (toks : List RTok) (path : List Char) :
    List SoftwareVersion :=
  match matchToks toks path [] with
  | none => []
  | some env =>
    match List.lookup (str "version") env with
    | none => []
    | some version =>
      if isDarwin then
        match List.lookup (str "variant") env with
        | none => []
        | some variant =>
          extractVariationsDarwin path version variant (List.lookup (str "suffix") env)
      else
        extractVariationsShared path version

/-- `NukeLauncher._find_executables`: glob each template (in declared order),
normalize backslashes to forward slashes, and keep the non-empty result sets
keyed by originating template (dict insertion order). -/
def findExecutables (matchTemplates : List (List Char))
    (globFS : List Char → List (List Char)) :
    List (List Char × List (List Char)) :=
  (matchTemplates.map fun mt =>
    (mt, (globFS (formatTemplate mt COMPONENT_GLOB_LOOKUP)).map
      (fun x => strReplace x (str "\\") (str "/")))).filter
    (fun p => !p.2.isEmpty)

/-- `NukeLauncher._find_software_variations` given the `(template, paths)`
pairs in the order `iteritems()` yields them. -/
def findSoftwareVariations (isDarwin : Bool) (regexOf : List Char → List RTok)
    (groups : List (List Char × List (List Char))) : List SoftwareVersion :=
  groups.flatMap fun p => p.2.flatMap (pathVariations isDarwin (regexOf p.1))

/-- `NukeLauncher.scan_software`: guard the platform, find executables, expand
variations, and keep those passing `is_version_supported`.  `dictOrder` models
the unspecified Python 2 dict iteration order of `iteritems()` (theorems
constrain it to permute its input). -/
def scanSoftware (home platform : List Char)
    (globFS : List Char → List (List Char))
    (dictOrder : List (List Char × List (List Char)) → List (List Char × List (List Char)))
    (supported : SoftwareVersion → Bool) : List SoftwareVersion :=
  if platform ∈ [str "darwin", str "win32", str "linux2"] then
    (findSoftwareVariations (platform = str "darwin") (regexToksOf home)
      (dictOrder (findExecutables (EXECUTABLE_MATCH_TEMPLATES home platform) globFS))).filter
      supported
  else []

/-- Modelled from the spec's ordering contract ("relative order is discovery
order: platform-template order, then path order, then variation-template
order — not sorted"): the scan result with groups laid out in the declared
template order. -/
def discoveryOrderScan (home platform : List Char)
    (globFS : List Char → List (List Char))
    (supported : SoftwareVersion → Bool) : List SoftwareVersion :=
  ((EXECUTABLE_MATCH_TEMPLATES home platform).flatMap fun mt =>
    ((globFS (formatTemplate mt COMPONENT_GLOB_LOOKUP)).map
      (fun x => strReplace x (str "\\") (str "/"))).flatMap
      (pathVariations (platform = str "darwin") (regexToksOf home mt))).filter
    supported

/-- Glob-and-normalize results of the filesystem used in the ordering
counterexample: one install under `/usr/local`, one under the home directory. -/
def demoFS (pattern : List Char) : List (List Char) :=
  if pattern = str "/usr/local/Nuke*/Nuke*" then
    [str "/usr/local/Nuke10.0v5/Nuke10.0"]
  else if pattern = str "/home/user/Nuke*/Nuke*" then
    [str "/home/user/Nuke9.0v1/Nuke9.0"]
  else []

/-- C1: the variation-template list selected for a version string is a pure
function of the substring before the first "."; exactly "7" or "8" selects the
legacy Nuke 7/8 list, every other value (including "6.3v6", "9.0v1", "10.0v5")
selects the modern 8-entry list.  The selection is a total Lean function, so it
never raises. -/
theorem variation_template_selection_by_major :
    (∀ v w : List Char, splitDotHead v = splitDotHead w →
      getVariationTemplatesFromVersion v = getVariationTemplatesFromVersion w)
    ∧ (∀ v : List Char, splitDotHead v = str "7" ∨ splitDotHead v = str "8" →
      getVariationTemplatesFromVersion v = NUKE_7_8_VARIATION_DISPLAY_NAME_TEMPLATES)
    ∧ (∀ v : List Char, splitDotHead v ≠ str "7" → splitDotHead v ≠ str "8" →
      getVariationTemplatesFromVersion v = NUKE_9_OR_HIGHER_VARIATION_DISPLAY_NAME_TEMPLATES)
    ∧ getVariationTemplatesFromVersion (str "6.3v6")
        = NUKE_9_OR_HIGHER_VARIATION_DISPLAY_NAME_TEMPLATES
    ∧ getVariationTemplatesFromVersion (str "9.0v1")
        = NUKE_9_OR_HIGHER_VARIATION_DISPLAY_NAME_TEMPLATES
    ∧ getVariationTemplatesFromVersion (str "10.0v5")
        = NUKE_9_OR_HIGHER_VARIATION_DISPLAY_NAME_TEMPLATES
    ∧ getVariationTemplatesFromVersion (str "7.0v0")
        = NUKE_7_8_VARIATION_DISPLAY_NAME_TEMPLATES := by
  refine ⟨?_, ?_, ?_, by decide, by decide, by decide, by decide⟩
  · intro v w h
    simp only [getVariationTemplatesFromVersion, h]
  · intro v h
    rcases h with h | h <;> simp [getVariationTemplatesFromVersion, h]
  · intro v h7 h8
    simp [getVariationTemplatesFromVersion, h7, h8]

/-- Witness for `variation_template_selection_by_major`: its hypotheses are
discharged at the concrete version "8.0v4". -/
theorem variation_template_selection_by_major_witness :
    getVariationTemplatesFromVersion (str "8.0v4")
      = NUKE_7_8_VARIATION_DISPLAY_NAME_TEMPLATES :=
  variation_template_selection_by_major.2.1 (str "8.0v4") (Or.inr (by decide))

/-- C4: icon selection is a case-insensitive first-match-wins substring check
in the order studio, hiero, nukex, default; "NukeX" yields the extended icon
and plain "Nuke" the default icon. -/
theorem icon_selection_first_match_wins :
    (∀ s t : List Char, pyLower s = pyLower t →
      getIconFromVariant s = getIconFromVariant t)
    ∧ (∀ s : List Char, containsSub (str "studio") (pyLower s) = true →
      getIconFromVariant s = str "icon_studio_256.png")
    ∧ (∀ s : List Char, containsSub (str "studio") (pyLower s) = false →
      containsSub (str "hiero") (pyLower s) = true →
      getIconFromVariant s = str "icon_hiero_256.png")
    ∧ (∀ s : List Char, containsSub (str "studio") (pyLower s) = false →
      containsSub (str "hiero") (pyLower s) = false →
      containsSub (str "nukex") (pyLower s) = true →
      getIconFromVariant s = str "icon_x_256.png")
    ∧ (∀ s : List Char, containsSub (str "studio") (pyLower s) = false →
      containsSub (str "hiero") (pyLower s) = false →
      containsSub (str "nukex") (pyLower s) = false →
      getIconFromVariant s = str "icon_256.png")
    ∧ getIconFromVariant (str "NukeX") = str "icon_x_256.png"
    ∧ getIconFromVariant (str "Nuke") = str "icon_256.png" := by
  refine ⟨?_, ?_, ?_, ?_, ?_, by decide, by decide⟩
  · intro s t h
    simp only [getIconFromVariant, h]
  · intro s h
    simp [getIconFromVariant, h]
  · intro s h1 h2
    simp [getIconFromVariant, h1, h2]
  · intro s h1 h2 h3
    simp [getIconFromVariant, h1, h2, h3]
  · intro s h1 h2 h3
    simp [getIconFromVariant, h1, h2, h3]

/-- Witness for `icon_selection_first_match_wins` at "NukeStudio". -/
theorem icon_selection_first_match_wins_witness :
    getIconFromVariant (str "NukeStudio") = str "icon_studio_256.png" :=
  icon_selection_first_match_wins.2.1 (str "NukeStudio") (by decide)

/-- The version-selected template list is always one of the two fixed lists. -/
theorem getVariationTemplates_eq_or (v : List Char) :
    getVariationTemplatesFromVersion v = NUKE_7_8_VARIATION_DISPLAY_NAME_TEMPLATES
    ∨ getVariationTemplatesFromVersion v
        = NUKE_9_OR_HIGHER_VARIATION_DISPLAY_NAME_TEMPLATES := by
  unfold getVariationTemplatesFromVersion
  split
  · exact Or.inl rfl
  · exact Or.inr rfl

/-- C2 counterexample: the base template "Nuke %s" is in the list selected for
"10.0v5", yet its launch-argument list is empty — it contains none of the five
flags, so "exactly one of the five flags per template" fails. -/
theorem arguments_exactly_one_flag_counterexample :
    str "Nuke %s" ∈ getVariationTemplatesFromVersion (str "10.0v5")
    ∧ (argumentsForVariationTemplate (str "Nuke %s")).filter
        (fun a => a ∈ fiveFlags) = []
    ∧ argumentsForVariationTemplate (str "Nuke %s") = [] := by
  decide

/-- C2 amended: for every version and every template in its selected list, the
argument list carries at most one of the five flags; it carries exactly one iff
the template mentions one of the five keywords (at most one keyword test is
true, so the choice is independent of test order); the list is the flag part
followed by `--nc` exactly when the template contains "Non-commercial"; and the
NukeX Non-commercial variation carries exactly `["--nukex", "--nc"]`. -/
theorem arguments_flag_structure :
    (∀ v t : List Char, t ∈ getVariationTemplatesFromVersion v →
      ((argumentsForVariationTemplate t).filter (fun a => a ∈ fiveFlags)).length ≤ 1
      ∧ (((argumentsForVariationTemplate t).filter (fun a => a ∈ fiveFlags)).length = 1
          ↔ (containsSub (str "Studio") t || containsSub (str "Assist") t
             || containsSub (str "NukeX") t || containsSub (str "Hiero") t
             || containsSub (str "PLE") t) = true)
      ∧ [containsSub (str "Studio") t, containsSub (str "Assist") t,
          containsSub (str "NukeX") t, containsSub (str "Hiero") t,
          containsSub (str "PLE") t].count true ≤ 1
      ∧ argumentsForVariationTemplate t
          = ((argumentsForVariationTemplate t).filter (fun a => a ∈ fiveFlags))
            ++ (if containsSub (str "Non-commercial") t then [str "--nc"] else []))
    ∧ argumentsForVariationTemplate (str "NukeX %s Non-commercial")
        = [str "--nukex", str "--nc"] := by
  constructor
  · intro v t ht
    rcases getVariationTemplates_eq_or v with h | h <;> rw [h] at ht <;>
      fin_cases ht <;> decide
  · decide

/-- Witness for `arguments_flag_structure` at version "10.0v5" and template
"Hiero %s". -/
theorem arguments_flag_structure_witness :
    ((argumentsForVariationTemplate (str "Hiero %s")).filter
        (fun a => a ∈ fiveFlags)).length ≤ 1 :=
  (arguments_flag_structure.1 (str "10.0v5") (str "Hiero %s") (by decide)).1

/-- C3: the darwin branch emits exactly one variation per matched path, whose
display name is the variant, a space, the version, then the suffix (empty when
the suffix group is absent); its path is the matched path and it has no launch
arguments.  An absent suffix group behaves exactly like an empty suffix. -/
theorem darwin_single_variation
    (path version variant : List Char) (suffix : Option (List Char)) :
    (extractVariationsDarwin path version variant suffix).length = 1
    ∧ (extractVariationsDarwin path version variant suffix).head?.map
        SoftwareVersion.displayName
        = some (variant ++ str " " ++ version ++ suffix.getD [])
    ∧ (extractVariationsDarwin path version variant suffix).head?.map
        SoftwareVersion.path = some path
    ∧ (extractVariationsDarwin path version variant suffix).head?.map
        SoftwareVersion.args = some []
    ∧ (extractVariationsDarwin path version variant suffix).head?.map
        SoftwareVersion.product = some variant
    ∧ (extractVariationsDarwin path version variant suffix).head?.map
        SoftwareVersion.version = some version
    ∧ extractVariationsDarwin path version variant none
        = extractVariationsDarwin path version variant (some []) :=
  ⟨rfl, rfl, rfl, rfl, rfl, rfl, rfl⟩

/-- Every product name extracted from a version-selected variation template is
a member of the variation-name list selected for the same version. -/
theorem product_mem_variations (version t : List Char)
    (ht : t ∈ getVariationTemplatesFromVersion version) :
    templateToVariationName t ∈ getVariationsFromVersion version := by
  by_cases h : splitDotHead version ∈ [str "7", str "8"]
  · rw [getVariationTemplatesFromVersion, if_pos h] at ht
    rw [getVariationsFromVersion, if_pos h]
    exact List.mem_map_of_mem _ ht
  · rw [getVariationTemplatesFromVersion, if_neg h] at ht
    rw [getVariationsFromVersion, if_neg h]
    exact List.mem_map_of_mem _ ht

/-- C10: every non-darwin variation's product is in the variation-name list for
its version, so `is_version_supported` reduces to the caller-supplied check on
those variations; a darwin variant outside the name lists (HieroPlayer) is
rejected by the containment check even when the caller accepts everything. -/
theorem product_containment_accepts_nonDarwin :
    (∀ version t : List Char, t ∈ getVariationTemplatesFromVersion version →
      templateToVariationName t ∈ getVariationsFromVersion version)
    ∧ (∀ (superOk : SoftwareVersion → Bool) (path version : List Char),
        ∀ sv ∈ extractVariationsShared path version,
          isVersionSupported superOk sv = superOk sv)
    ∧ (∀ sv ∈ extractVariationsDarwin
          (str "/Applications/Nuke10.0v5/HieroPlayer10.0v5.app")
          (str "10.0v5") (str "HieroPlayer") none,
        isVersionSupported (fun _ => true) sv = false) := by
  refine ⟨product_mem_variations, ?_, by decide⟩
  intro superOk path version sv hsv
  simp only [extractVariationsShared, List.mem_map] at hsv
  obtain ⟨t, ht, rfl⟩ := hsv
  unfold isVersionSupported
  rw [decide_eq_true (product_mem_variations version t ht), Bool.and_true]

/-- Witness for `product_containment_accepts_nonDarwin` at the base Nuke
variation of a win32-style scan. -/
theorem product_containment_accepts_nonDarwin_witness :
    isVersionSupported (fun _ => true)
      { version := str "10.0v5"
        product := str "Nuke"
        displayName := str "Nuke 10.0v5"
        path := str "C:/Program Files/Nuke10.0v5/Nuke10.0.exe"
        icon := str "icon_256.png"
        args := [] } = true :=
  product_containment_accepts_nonDarwin.2.1 (fun _ => true)
    (str "C:/Program Files/Nuke10.0v5/Nuke10.0.exe") (str "10.0v5") _ (by decide)

/-- A replacement pass whose pattern starts with a character absent from a
prefix leaves that prefix untouched and proceeds on the remainder. -/
theorem strReplaceAux_append (old new : List Char) (h : Char)
    (hh : old.head? = some h) :
    ∀ (s₁ : List Char), (∀ c ∈ s₁, c ≠ h) → ∀ (fuel : Nat) (s₂ : List Char),
      strReplaceAux old new (s₁.length + fuel) (s₁ ++ s₂)
        = s₁ ++ strReplaceAux old new fuel s₂ := by
  intro s₁
  induction s₁ with
  | nil => intro _ fuel s₂; simp
  | cons c cs ih =>
    intro hc fuel s₂
    have hch : c ≠ h := hc c (List.mem_cons_self c cs)
    obtain ⟨tl, rfl⟩ : ∃ tl, old = h :: tl := by
      cases old with
      | nil => simp at hh
      | cons a as => exact ⟨as, by simp_all⟩
    have hpre : (h :: tl).isPrefixOf (c :: (cs ++ s₂)) = false := by
      simp [List.isPrefixOf]
      intro hhc
      exact absurd hhc.symm hch
    have hlen : (c :: cs).length + fuel = (cs.length + fuel) + 1 := by
      simp [List.length_cons]
      ring
    rw [hlen]
    show strReplaceAux (h :: tl) new ((cs.length + fuel) + 1) (c :: (cs ++ s₂))
      = (c :: cs) ++ strReplaceAux (h :: tl) new fuel s₂
    simp only [strReplaceAux, hpre, Bool.false_eq_true, if_false]
    rw [ih (fun d hd => hc d (List.mem_cons_of_mem c hd)) fuel s₂]
    rfl

/-- `strReplace` distributes over an append whose left part avoids the
pattern's first character. -/
theorem strReplace_append (s₁ s₂ old new : List Char) (h : Char)
    (hh : old.head? = some h) (hc : ∀ c ∈ s₁, c ≠ h) :
    strReplace (s₁ ++ s₂) old new = s₁ ++ strReplace s₂ old new := by
  obtain ⟨tl, rfl⟩ : ∃ tl, old = h :: tl := by
    cases old with
    | nil => simp at hh
    | cons a as => exact ⟨as, by simp_all⟩
  unfold strReplace
  simp only [List.isEmpty_cons, if_false, Bool.false_eq_true]
  rw [List.length_append]
  exact strReplaceAux_append (h :: tl) new h rfl s₁ hc s₂.length s₂

/-- `_format` distributes over an append whose left part contains no brace. -/
theorem formatTemplate_append (s₁ : List Char) (hc : ∀ c ∈ s₁, c ≠ '{') :
    ∀ (tokens : List (List Char × List Char)) (t : List Char),
      formatTemplate (s₁ ++ t) tokens = s₁ ++ formatTemplate t tokens := by
  intro tokens
  unfold formatTemplate
  induction tokens with
  | nil => intro t; rfl
  | cons kv tks ih =>
    intro t
    simp only [List.foldl_cons]
    rw [strReplace_append s₁ t _ _ '{' (by simp [str]) hc]
    exact ih (strReplace t (str "\x7b" ++ kv.1 ++ str "\x7d") kv.2)

/-- A simultaneous-substitution pass copies a placeholder-free prefix
verbatim. -/
theorem formatSpecAux_append (tokens : List (List Char × List Char)) :
    ∀ (s₁ : List Char), (∀ c ∈ s₁, c ≠ '{') → ∀ (fuel : Nat) (s₂ : List Char),
      formatSpecAux tokens (s₁.length + fuel) (s₁ ++ s₂)
        = s₁ ++ formatSpecAux tokens fuel s₂ := by
  intro s₁
  induction s₁ with
  | nil => intro _ fuel s₂; simp
  | cons c cs ih =>
    intro hc fuel s₂
    have hch : c ≠ '{' := hc c (List.mem_cons_self c cs)
    have hfind : lookupKeyPrefix tokens (c :: (cs ++ s₂)) = none := by
      unfold lookupKeyPrefix
      rw [List.find?_eq_none]
      intro kv _
      have : str "\x7b" ++ kv.1 ++ str "\x7d" = '{' :: (kv.1 ++ str "\x7d") := by
        simp [str]
      rw [this]
      simp [List.isPrefixOf]
      intro hhc
      exact absurd hhc.symm hch
    have hlen : (c :: cs).length + fuel = (cs.length + fuel) + 1 := by
      simp [List.length_cons]
      ring
    rw [hlen]
    show formatSpecAux tokens ((cs.length + fuel) + 1) (c :: (cs ++ s₂))
      = (c :: cs) ++ formatSpecAux tokens fuel s₂
    simp only [formatSpecAux, hfind]
    rw [ih (fun d hd => hc d (List.mem_cons_of_mem c hd)) fuel s₂]
    rfl

/-- `formatSpec` distributes over an append whose left part contains no
brace. -/
theorem formatSpec_append (tokens : List (List Char × List Char))
    (s₁ t : List Char) (hc : ∀ c ∈ s₁, c ≠ '{') :
    formatSpec tokens (s₁ ++ t) = s₁ ++ formatSpec tokens t := by
  unfold formatSpec
  rw [List.length_append]
  exact formatSpecAux_append tokens s₁ hc t.length t

/-- The darwin row of the template table. -/
theorem EMT_darwin (home : List Char) :
    EXECUTABLE_MATCH_TEMPLATES home (str "darwin") = [DARWIN_MATCH_TEMPLATE] := by
  unfold EXECUTABLE_MATCH_TEMPLATES
  rw [if_pos rfl]

/-- The win32 row of the template table. -/
theorem EMT_win32 (home : List Char) :
    EXECUTABLE_MATCH_TEMPLATES home (str "win32") = [WIN32_MATCH_TEMPLATE] := by
  unfold EXECUTABLE_MATCH_TEMPLATES
  rw [if_neg (by decide), if_pos rfl]

/-- The linux2 row of the template table. -/
theorem EMT_linux2 (home : List Char) :
    EXECUTABLE_MATCH_TEMPLATES home (str "linux2")
      = [LINUX2_MATCH_TEMPLATE, LINUX2_HOME_MATCH_TEMPLATE home] := by
  unfold EXECUTABLE_MATCH_TEMPLATES
  rw [if_neg (by decide), if_neg (by decide), if_pos rfl]

/-- C8 counterexample: with lookup `a ↦ "\x7b"`, `b ↦ "x"` and template
`"\x7ba\x7db\x7d"`, the only placeholder occurrence in the template is
`\x7ba\x7d`, so simultaneous substitution yields `"\x7bb\x7d"`; the source's
sequential `replace` passes instead produce `"x"`, because the second pass
consumes text created by the first. -/
theorem format_not_simultaneous_counterexample :
    formatTemplate (str "\x7ba\x7db\x7d") [(str "a", str "\x7b"), (str "b", str "x")]
      = str "x"
    ∧ formatSpec [(str "a", str "\x7b"), (str "b", str "x")] (str "\x7ba\x7db\x7d")
      = str "\x7bb\x7d"
    ∧ formatTemplate (str "\x7ba\x7db\x7d") [(str "a", str "\x7b"), (str "b", str "x")]
      ≠ formatSpec [(str "a", str "\x7b"), (str "b", str "x")] (str "\x7ba\x7db\x7d") := by
  decide

/-- C8 amended: on every template of the fixed per-OS tables (for any home
directory free of braces) and both fixed lookups, the sequential formatter
coincides with simultaneous substitution — every placeholder occurrence whose
name is a key is replaced and everything else is copied; a placeholder with an
unknown name is left untouched rather than erroring. -/
theorem format_matches_simultaneous_on_tables :
    (∀ home : List Char, '{' ∉ home →
      ∀ T ∈ EXECUTABLE_MATCH_TEMPLATES home (str "darwin")
            ++ EXECUTABLE_MATCH_TEMPLATES home (str "win32")
            ++ EXECUTABLE_MATCH_TEMPLATES home (str "linux2"),
        formatTemplate T COMPONENT_GLOB_LOOKUP = formatSpec COMPONENT_GLOB_LOOKUP T
        ∧ formatTemplate T COMPONENT_REGEX_LOOKUP = formatSpec COMPONENT_REGEX_LOOKUP T)
    ∧ formatTemplate (str "/x/{foo}.app") COMPONENT_GLOB_LOOKUP = str "/x/{foo}.app"
    ∧ formatSpec COMPONENT_GLOB_LOOKUP (str "/x/{foo}.app") = str "/x/{foo}.app" := by
  refine ⟨?_, by decide, by decide⟩
  intro home hhome T hT
  have hc : ∀ c ∈ home, c ≠ '{' := fun c hcm he => hhome (he ▸ hcm)
  simp only [EMT_darwin, EMT_win32, EMT_linux2, List.cons_append, List.nil_append,
    List.mem_cons, List.not_mem_nil, or_false] at hT
  rcases hT with rfl | rfl | rfl | rfl
  · exact ⟨by decide, by decide⟩
  · exact ⟨by decide, by decide⟩
  · exact ⟨by decide, by decide⟩
  · unfold LINUX2_HOME_MATCH_TEMPLATE
    constructor
    · rw [formatTemplate_append home hc, formatSpec_append _ home _ hc]
      exact congrArg (fun x => home ++ x) (by decide)
    · rw [formatTemplate_append home hc, formatSpec_append _ home _ hc]
      exact congrArg (fun x => home ++ x) (by decide)

/-- Witness for `format_matches_simultaneous_on_tables` at home "/home/user"
and the win32 template. -/
theorem format_matches_simultaneous_on_tables_witness :
    formatTemplate WIN32_MATCH_TEMPLATE COMPONENT_GLOB_LOOKUP
      = formatSpec COMPONENT_GLOB_LOOKUP WIN32_MATCH_TEMPLATE
    ∧ formatTemplate WIN32_MATCH_TEMPLATE COMPONENT_REGEX_LOOKUP
      = formatSpec COMPONENT_REGEX_LOOKUP WIN32_MATCH_TEMPLATE :=
  format_matches_simultaneous_on_tables.1 (str "/home/user") (by decide)
    WIN32_MATCH_TEMPLATE (by decide)

/-- C9: formatting an already-formatted template of the fixed tables (for any
home directory free of braces) with the same lookup is a no-op, for both the
glob and the regex lookup. -/
theorem format_idempotent_on_tables :
    ∀ home : List Char, '{' ∉ home →
      ∀ T ∈ EXECUTABLE_MATCH_TEMPLATES home (str "darwin")
            ++ EXECUTABLE_MATCH_TEMPLATES home (str "win32")
            ++ EXECUTABLE_MATCH_TEMPLATES home (str "linux2"),
        formatTemplate (formatTemplate T COMPONENT_GLOB_LOOKUP) COMPONENT_GLOB_LOOKUP
          = formatTemplate T COMPONENT_GLOB_LOOKUP
        ∧ formatTemplate (formatTemplate T COMPONENT_REGEX_LOOKUP) COMPONENT_REGEX_LOOKUP
          = formatTemplate T COMPONENT_REGEX_LOOKUP := by
  intro home hhome T hT
  have hc : ∀ c ∈ home, c ≠ '{' := fun c hcm he => hhome (he ▸ hcm)
  simp only [EMT_darwin, EMT_win32, EMT_linux2, List.cons_append, List.nil_append,
    List.mem_cons, List.not_mem_nil, or_false] at hT
  rcases hT with rfl | rfl | rfl | rfl
  · exact ⟨by decide, by decide⟩
  · exact ⟨by decide, by decide⟩
  · exact ⟨by decide, by decide⟩
  · unfold LINUX2_HOME_MATCH_TEMPLATE
    constructor
    · rw [formatTemplate_append home hc, formatTemplate_append home hc]
      exact congrArg (fun x => home ++ x) (by decide)
    · rw [formatTemplate_append home hc, formatTemplate_append home hc]
      exact congrArg (fun x => home ++ x) (by decide)

/-- Witness for `format_idempotent_on_tables` at home "/home/user" and the
home-directory linux2 template. -/
theorem format_idempotent_on_tables_witness :
    formatTemplate
        (formatTemplate (LINUX2_HOME_MATCH_TEMPLATE (str "/home/user"))
          COMPONENT_GLOB_LOOKUP) COMPONENT_GLOB_LOOKUP
      = formatTemplate (LINUX2_HOME_MATCH_TEMPLATE (str "/home/user"))
          COMPONENT_GLOB_LOOKUP
    ∧ formatTemplate
        (formatTemplate (LINUX2_HOME_MATCH_TEMPLATE (str "/home/user"))
          COMPONENT_REGEX_LOOKUP) COMPONENT_REGEX_LOOKUP
      = formatTemplate (LINUX2_HOME_MATCH_TEMPLATE (str "/home/user"))
          COMPONENT_REGEX_LOOKUP :=
  format_idempotent_on_tables (str "/home/user") (by decide)
    (LINUX2_HOME_MATCH_TEMPLATE (str "/home/user")) (by decide)

/-- C5 counterexample: "/Applications/Nukefoo/bar.app" matches the glob form
of the darwin template but not its regex form ("foo" has no character of
`[\d.v]`), and the extractor consequently produces nothing for it. -/
theorem glob_match_not_regex_counterexample :
    globMatch (formatTemplate DARWIN_MATCH_TEMPLATE COMPONENT_GLOB_LOOKUP)
      (str "/Applications/Nukefoo/bar.app") = true
    ∧ matchToks darwinToks (str "/Applications/Nukefoo/bar.app") [] = none
    ∧ pathVariations true darwinToks (str "/Applications/Nukefoo/bar.app") = [] := by
  decide

/-- C5 amended: a discovered path matching a template's glob form need not
match its regex form; whenever the regex match fails, the path is skipped —
it contributes no variations and raises nothing. -/
theorem regex_failure_skipped (isDarwin : Bool) (toks : List RTok)
    (path : List Char) (h : matchToks toks path [] = none) :
    pathVariations isDarwin toks path = [] := by
  unfold pathVariations
  rw [h]

/-- Witness for `regex_failure_skipped` at the glob-accepted, regex-rejected
darwin path. -/
theorem regex_failure_skipped_witness :
    pathVariations false darwinToks (str "/Applications/Nukefoo/bar.app") = [] :=
  regex_failure_skipped false darwinToks (str "/Applications/Nukefoo/bar.app")
    (by decide)

/-- Dropping the empty-match groups (as `_find_executables` does) never changes
the flattened variation list. -/
theorem findSoftwareVariations_filter (isDarwin : Bool)
    (regexOf : List Char → List RTok) (l : List (List Char × List (List Char))) :
    findSoftwareVariations isDarwin regexOf (l.filter (fun p => !p.2.isEmpty))
      = findSoftwareVariations isDarwin regexOf l := by
  induction l with
  | nil => rfl
  | cons p ps ih =>
    unfold findSoftwareVariations at *
    by_cases h : p.2.isEmpty
    · have hnil : p.2 = [] := by
        cases hp : p.2 with
        | nil => rfl
        | cons a as => rw [hp] at h; simp at h
      simp [List.filter_cons, h, hnil, ih]
    · simp [List.filter_cons, h, ih]

/-- The scan pipeline flattens to one `flatMap` over the declared template
list. -/
theorem scan_groups_flatten (isDarwin : Bool) (regexOf : List Char → List RTok)
    (Ts : List (List Char)) (globFS : List Char → List (List Char)) :
    findSoftwareVariations isDarwin regexOf (findExecutables Ts globFS)
      = Ts.flatMap fun mt =>
          ((globFS (formatTemplate mt COMPONENT_GLOB_LOOKUP)).map
            (fun x => strReplace x (str "\\") (str "/"))).flatMap
            (pathVariations isDarwin (regexOf mt)) := by
  unfold findExecutables
  rw [findSoftwareVariations_filter]
  induction Ts with
  | nil => rfl
  | cons mt ts ih =>
    unfold findSoftwareVariations at *
    simp only [List.map_cons, List.flatMap_cons, ih]

/-- C6 counterexample: with two linux2 installs (one under `/usr/local`, one
under the home directory) and a dict iteration order that reverses insertion
order — a legitimate permutation, which Python 2 dicts do not constrain — the
scan's first result comes from the *second* declared template, while the
declared-template-order reading of the spec puts the `/usr/local` result
first. -/
theorem scan_template_order_counterexample :
    (findExecutables (EXECUTABLE_MATCH_TEMPLATES (str "/home/user") (str "linux2"))
        demoFS).reverse.Perm
      (findExecutables (EXECUTABLE_MATCH_TEMPLATES (str "/home/user") (str "linux2"))
        demoFS)
    ∧ (scanSoftware (str "/home/user") (str "linux2") demoFS List.reverse
        (fun _ => true)).head?.map SoftwareVersion.path
      = some (str "/home/user/Nuke9.0v1/Nuke9.0")
    ∧ (discoveryOrderScan (str "/home/user") (str "linux2") demoFS
        (fun _ => true)).head?.map SoftwareVersion.path
      = some (str "/usr/local/Nuke10.0v5/Nuke10.0")
    ∧ scanSoftware (str "/home/user") (str "linux2") demoFS List.reverse
        (fun _ => true)
      ≠ discoveryOrderScan (str "/home/user") (str "linux2") demoFS
        (fun _ => true) := by
  decide

/-- C6 amended: under insertion-order dict iteration the scan result is
exactly the discovery order of the spec (declared template order, then path
order, then variation-template order, filtered, never sorted); under any other
dict iteration order — Python 2 leaves it unspecified — the result is a
permutation of that list in which each template's group keeps its internal
discovery order. -/
theorem scan_discovery_order :
    (∀ (home platform : List Char) (globFS : List Char → List (List Char))
        (supported : SoftwareVersion → Bool),
      platform ∈ [str "darwin", str "win32", str "linux2"] →
      scanSoftware home platform globFS id supported
        = discoveryOrderScan home platform globFS supported)
    ∧ (∀ (home platform : List Char) (globFS : List Char → List (List Char))
        (supported : SoftwareVersion → Bool)
        (dictOrder : List (List Char × List (List Char)) →
          List (List Char × List (List Char))),
      (∀ l, (dictOrder l).Perm l) →
      (scanSoftware home platform globFS dictOrder supported).Perm
        (scanSoftware home platform globFS id supported)) := by
  constructor
  · intro home platform globFS supported h
    unfold scanSoftware discoveryOrderScan
    rw [if_pos h, id_eq, scan_groups_flatten]
  · intro home platform globFS supported dictOrder hperm
    unfold scanSoftware
    by_cases h : platform ∈ [str "darwin", str "win32", str "linux2"]
    · rw [if_pos h, if_pos h]
      apply List.Perm.filter
      unfold findSoftwareVariations
      simp only [id_eq]
      exact (hperm _).flatMap_right _
    · rw [if_neg h, if_neg h]

/-- Witness for `scan_discovery_order` on the concrete two-install linux2
filesystem. -/
theorem scan_discovery_order_witness :
    scanSoftware (str "/home/user") (str "linux2") demoFS id (fun _ => true)
      = discoveryOrderScan (str "/home/user") (str "linux2") demoFS
          (fun _ => true) :=
  scan_discovery_order.1 (str "/home/user") (str "linux2") demoFS (fun _ => true)
    (by decide)

/-- C7: a platform outside the three supported families yields an empty scan
result, and an empty filesystem (no glob matches anywhere) also yields an
empty result; both are total computations, so no exception can arise. -/
theorem scan_empty_on_unknown_platform_or_no_matches :
    (∀ (home platform : List Char) (globFS : List Char → List (List Char))
        (dictOrder : List (List Char × List (List Char)) →
          List (List Char × List (List Char)))
        (supported : SoftwareVersion → Bool),
      platform ∉ [str "darwin", str "win32", str "linux2"] →
      scanSoftware home platform globFS dictOrder supported = [])
    ∧ (∀ (home platform : List Char) (globFS : List Char → List (List Char))
        (dictOrder : List (List Char × List (List Char)) →
          List (List Char × List (List Char)))
        (supported : SoftwareVersion → Bool),
      (∀ l, (dictOrder l).Perm l) →
      (∀ pat, globFS pat = []) →
      scanSoftware home platform globFS dictOrder supported = []) := by
  constructor
  · intro home platform globFS dictOrder supported h
    unfold scanSoftware
    rw [if_neg h]
  · intro home platform globFS dictOrder supported hperm hfs
    unfold scanSoftware
    by_cases h : platform ∈ [str "darwin", str "win32", str "linux2"]
    · rw [if_pos h]
      have h1 : findExecutables (EXECUTABLE_MATCH_TEMPLATES home platform) globFS
          = [] := by
        unfold findExecutables
        rw [List.filter_eq_nil_iff]
        intro p hp
        obtain ⟨mt, _, rfl⟩ := List.mem_map.mp hp
        simp [hfs]
      rw [h1, (hperm []).eq_nil]
      rfl
    · rw [if_neg h]

/-- Witness for `scan_empty_on_unknown_platform_or_no_matches` at platform
"win64". -/
theorem scan_empty_on_unknown_platform_witness :
    scanSoftware (str "/home/user") (str "win64") demoFS id (fun _ => true)
      = [] :=
  scan_empty_on_unknown_platform_or_no_matches.1 (str "/home/user") (str "win64")
    demoFS id (fun _ => true) (by decide)
